import Mathlib

/-!
Verification of the incident-resolution orchestration core of the
sre-agent-system repository: the Outcome protocol, the bounded
tool-invocation loops, the reasoning-channel retry/backoff wrapper,
the adapter dry-run gates, the deterministic GCE decision tree,
the validation closure caller, and the episodic memory store.

Python dictionaries are modelled as structures with `Option` fields
(`none` = key absent); `dict.get(k, d)` becomes `(field).getD d`.
Python float confidences are modelled as rationals where the code only
multiplies and compares, and as reals where the code calls `math.exp`.
The external reasoning oracle is modelled as an arbitrary response
sequence `Nat → Option _` (`none` = the channel gave up after retries),
and cloud adapters as arbitrary functions from command to result.
-/

/-! ## String helpers (Python `in`, truthiness, f-string rendering) -/

/-- Whether the first list is a prefix of the second (used for substring search). -/
def startsWithList : List Char → List Char → Bool
  | [], _ => true
  | _ :: _, [] => false
  | a :: as, b :: bs => a == b && startsWithList as bs

/-- Whether the first list occurs contiguously inside the second. -/
def containsList (needle : List Char) : List Char → Bool
  | [] => needle.isEmpty
  | c :: rest => startsWithList needle (c :: rest) || containsList needle rest

/-- Python `needle in hay` on strings (substring containment). -/
def pyIn (needle hay : String) : Bool :=
  containsList needle.toList hay.toList

/-- Rendering of an optional string inside a Python f-string: `None` when absent. -/
def optStr : Option String → String
  | none => "None"
  | some s => s

/-- Python `str.lower()` (character-wise; the markers compared are ASCII). -/
def pyLower (s : String) : String :=
  String.mk (s.toList.map Char.toLower)

/-- Python `str.upper()` (character-wise; the markers compared are ASCII). -/
def pyUpper (s : String) : String :=
  String.mk (s.toList.map Char.toUpper)

/-- Whitespace as stripped by Python `str.strip()` (the common ASCII cases). -/
def isSpaceChar (c : Char) : Bool :=
  c == ' ' || c == '\t' || c == '\n' || c == '\r'

/-- Python `str.strip()`: drop leading and trailing whitespace. -/
def pyStrip (s : String) : String :=
  String.mk (((s.toList.dropWhile isSpaceChar).reverse.dropWhile isSpaceChar).reverse)

/-- Python `s.startswith(p)`. -/
def pyStartsWith (s p : String) : Bool :=
  startsWithList p.toList s.toList

/-- Python truthiness of an optional string: `None` and `""` are falsy. -/
def pyTruthy : Option String → Bool
  | none => false
  | some s => s ≠ ""

/-! ## Outcome protocol (spec section 3, shared result contract) -/

/-- Status taxonomy of the Outcome contract. -/
inductive OStatus
  | investigating
  | resolved
  | needsHandoff
  | needsEscalation
  | unresolved
  | error
deriving DecidableEq

/-- The Outcome contract every specialist call returns. -/
structure Outcome where
  status : OStatus
  findings : List String
  actions_taken : List String
  solution : Option String := none
  suggested_specialist : Option String := none
deriving DecidableEq

/-- Modelled from the spec: the Outcome invariant of section 8
("solution != null ⇔ status == RESOLVED, and
suggested_specialist != null ⇔ status == NEEDS_HANDOFF").
Stated from the spec's words, to be compared against the outcomes the
code produces. -/
def outcomeInvariant (o : Outcome) : Prop :=
  (o.solution.isSome ↔ o.status = OStatus.resolved) ∧
  (o.suggested_specialist.isSome ↔ o.status = OStatus.needsHandoff)

instance (o : Outcome) : Decidable (outcomeInvariant o) := by
  unfold outcomeInvariant
  infer_instance

/-! ## Adapter command interface (Python dicts passed to executors) -/

/-- A structured adapter command (`{action, ...}` dictionary).
`pfx` stands for the source's object-name filter key. -/
structure Cmd where
  action : Option String := none
  instance_name : Option String := none
  zone : Option String := none
  ssh_command : Option String := none
  rule_name : Option String := none
  ports : Option (List String) := none
  network : Option String := none
  pod_name : Option String := none
  deployment_name : Option String := none
  nspace : Option String := none
  replicas : Option Int := none
  cluster_name : Option String := none
  location : Option String := none
  bucket_name : Option String := none
  pfx : Option String := none
deriving DecidableEq

/-- A structured adapter result (`{status, ...}` dictionary). -/
structure ExecResult where
  status : String := ""
  message : Option String := none
  instance_status : Option String := none
  external_ip : Option String := none
  http_allowed : Option Bool := none
  https_allowed : Option Bool := none
  ssh_allowed : Option Bool := none
  network : Option String := none
  output : Option String := none
  stderr : Option String := none
  return_code : Option Int := none
  command : Option Cmd := none
deriving DecidableEq

/-- The `{'status': 'DRY_RUN', 'message': f"Would execute: {action}", 'command': command}`
result every executor returns when its dry-run gate fires. -/
def mkDryRun (action : Option String) (c : Cmd) : ExecResult :=
  { status := "DRY_RUN"
    message := some ("Would execute: " ++ optStr action)
    command := some c }

/-- The structured error for an unrecognized action name. -/
def mkUnknownAction (action : Option String) : ExecResult :=
  { status := "ERROR", message := some ("Unknown action: " ++ optStr action) }

/-! ### GCE executor dry-run gate (src/app/tools/gce_executor.py lines 42-106) -/

/-- `read_only_actions` of GCEExecutorTool.execute_command. -/
def gceReadOnlyActions : List String :=
  ["get_instance_info", "get_serial_port_output", "check_guest_metrics",
   "get_instance_by_ip", "get_disk_info"]

/-- `write_actions` of GCEExecutorTool.execute_command. -/
def gceWriteActions : List String :=
  ["restart_instance", "stop_instance", "start_instance", "reset_instance",
   "execute_ssh_command", "add_external_ip", "create_firewall_rule", "resize_disk"]

/-- The action names GCEExecutorTool.execute_command dispatches. -/
def gceKnownActions : List String :=
  ["restart_instance", "stop_instance", "start_instance", "get_instance_info",
   "reset_instance", "execute_ssh_command", "get_serial_port_output",
   "check_guest_metrics", "get_instance_by_ip", "add_external_ip",
   "check_firewall_rules", "create_firewall_rule", "get_disk_info", "resize_disk"]

/-- GCEExecutorTool.execute_command: state-changing actions are short-circuited
to DRY_RUN when dry_run is set; everything else is dispatched (`perform`
abstracts the cloud-API-touching handlers, which never raise). -/
def gceExecuteCommand (dryRun : Bool) (perform : Cmd → ExecResult) (c : Cmd) : ExecResult :=
  if dryRun && gceWriteActions.contains (optStr c.action) then mkDryRun c.action c
  else if gceKnownActions.contains (optStr c.action) then perform c
  else mkUnknownAction c.action

/-! ### GKE executor dry-run gate (src/tools/gke_executor.py lines 19-63) -/

/-- The action names GKEExecutorTool.execute_command dispatches. -/
def gkeKnownActions : List String :=
  ["get_cluster_info", "get_node_pools", "set_node_pool_size", "get_cluster_status",
   "get_pod_details", "get_pod_logs", "get_recent_events", "find_pod_namespace",
   "delete_pod", "restart_deployment", "scale_deployment", "list_deployments"]

/-- GKEExecutorTool.execute_command: when dry_run is set, every action —
read-only ones included — returns DRY_RUN before any dispatch. -/
def gkeExecuteCommand (dryRun : Bool) (perform : Cmd → ExecResult) (c : Cmd) : ExecResult :=
  if dryRun then mkDryRun c.action c
  else if gkeKnownActions.contains (optStr c.action) then perform c
  else mkUnknownAction c.action

/-! ### GCS executor dry-run gate (src/tools/gcs_executor.py lines 16-39) -/

/-- The dry-run allow-list of GCSExecutorTool.execute_command. -/
def gcsDryRunAllowed : List String :=
  ["get_bucket_metadata", "list_bucket_contents", "get_bucket_iam"]

/-- The action names GCSExecutorTool.execute_command dispatches. -/
def gcsKnownActions : List String :=
  ["get_bucket_metadata", "get_bucket_iam", "list_bucket_contents",
   "enable_public_access_prevention"]

/-- GCSExecutorTool.execute_command: in dry_run, actions outside the
read-only allow-list are short-circuited to DRY_RUN. -/
def gcsExecuteCommand (dryRun : Bool) (perform : Cmd → ExecResult) (c : Cmd) : ExecResult :=
  if dryRun && !(gcsDryRunAllowed.contains (optStr c.action)) then mkDryRun c.action c
  else if gcsKnownActions.contains (optStr c.action) then perform c
  else mkUnknownAction c.action

/-! ## Episodic memory store (src/app/tools/memory_store.py)

Confidence values are rationals (the Python code only multiplies by
rational constants and compares); timestamps are naturals. The persisted
file always mirrors the in-memory list on `save`, so persistence is
modelled by whether `save` was called. -/

/-- One stored memory entry (the dictionary built by `add_incident`;
`last_used` is added by `feedback`). -/
structure MemEntry where
  id : String
  timestamp : Nat
  symptoms : List String
  diagnosis : String
  solution : String
  specialists : List String
  cost_impact : Rat
  confidence : Rat
  success_count : Nat
  failure_count : Nat
  last_used : Option Nat := none
deriving DecidableEq

/-- MemoryStore.add_incident: append a fresh entry and save. -/
def addIncident (now : Nat) (mems : List MemEntry) (symptoms : List String)
    (diagnosis solution : String) (specialists : List String)
    (cost_impact confidence : Rat) : List MemEntry :=
  mems ++ [{ id := "mem-" ++ toString now
             timestamp := now
             symptoms := symptoms
             diagnosis := diagnosis
             solution := solution
             specialists := specialists
             cost_impact := cost_impact
             confidence := confidence
             success_count := 1
             failure_count := 0 }]

/-- The in-place mutation MemoryStore.feedback applies to the matching entry. -/
def feedbackUpdate (now : Nat) (success : Bool) (m : MemEntry) : MemEntry :=
  if success then
    { m with success_count := m.success_count + 1
             confidence := min (99 / 100) (m.confidence * (11 / 10))
             last_used := some now }
  else
    { m with failure_count := m.failure_count + 1
             confidence := m.confidence * (1 / 2)
             last_used := some now }

/-- MemoryStore.feedback: scan the entry list, mutate the first entry whose
id matches, save, and return; if no entry matches, fall off the loop with
no mutation and no save. The boolean records whether `save` ran. -/
def feedbackList (now : Nat) (memory_id : String) (success : Bool) :
    List MemEntry → List MemEntry × Bool
  | [] => ([], false)
  | m :: rest =>
    if m.id == memory_id then (feedbackUpdate now success m :: rest, true)
    else
      let r := feedbackList now memory_id success rest
      (m :: r.1, r.2)

/-! ### Memory search with exponential time decay (MemoryStore.search)

The decay factor `math.exp(-age_days / 30)` is transcendental, so this
part is modelled over the reals; the entry's age in days is taken as an
input (the Python code derives it from the stored timestamp). -/

/-- An entry as seen by `search`: stored confidence, age in days, symptoms. -/
structure SearchEntry where
  confidence : Real
  ageDays : Real
  symptoms : List String

/-- `adjusted_confidence = confidence * exp(-age_days / 30)` from
MemoryStore.search. -/
noncomputable def adjustedConfidence (confidence ageDays : Real) : Real :=
  confidence * Real.exp (-ageDays / 30)

open Classical in
/-- The per-entry loop of MemoryStore.search: skip entries whose decayed
confidence is below the threshold, score the rest by keyword overlap,
and keep those scoring above the threshold. -/
noncomputable def searchLoop (currentSet : List String) (minConfidence : Real) :
    List SearchEntry → List (SearchEntry × Real)
  | [] => []
  | e :: rest =>
    if adjustedConfidence e.confidence e.ageDays < minConfidence then
      searchLoop currentSet minConfidence rest
    else if 0 < (currentSet.filter
        (fun s => ((e.symptoms.map pyLower).dedup).contains s)).length then
      if minConfidence < adjustedConfidence e.confidence e.ageDays *
          (((currentSet.filter
              (fun s => ((e.symptoms.map pyLower).dedup).contains s)).length : Real) /
            (currentSet.length : Real)) then
        (e, adjustedConfidence e.confidence e.ageDays *
          (((currentSet.filter
              (fun s => ((e.symptoms.map pyLower).dedup).contains s)).length : Real) /
            (currentSet.length : Real))) :: searchLoop currentSet minConfidence rest
      else searchLoop currentSet minConfidence rest
    else searchLoop currentSet minConfidence rest

open Classical in
/-- Stable descending insertion by match score (Python `sorted(...,
key=match_score, reverse=True)` is a stable descending sort). -/
noncomputable def insertDesc (x : SearchEntry × Real) :
    List (SearchEntry × Real) → List (SearchEntry × Real)
  | [] => [x]
  | y :: ys => if y.2 < x.2 then x :: y :: ys else y :: insertDesc x ys

/-- Descending stable sort of scored entries. -/
noncomputable def sortByScore (l : List (SearchEntry × Real)) :
    List (SearchEntry × Real) :=
  l.foldr insertDesc []

/-- MemoryStore.search: lowercase and deduplicate the query symptoms,
run the scoring loop, and sort the hits by descending match score. -/
noncomputable def searchMem (entries : List SearchEntry)
    (currentSymptoms : List String) (minConfidence : Real) :
    List (SearchEntry × Real) :=
  sortByScore (searchLoop ((currentSymptoms.map pyLower).dedup)
    minConfidence entries)

/-! ## Reasoning channel (`_safe_send` in linux_agent.py lines 231-246 and
gcp_agent.py lines 548-564; the two bodies are identical) -/

/-- Result of one `chat.send_message` attempt: a response (abstracted to a
number) or an exception message. -/
inductive CallRes
  | ok (resp : Nat)
  | err (msg : String)
deriving DecidableEq

/-- Observable timing/call events of `_safe_send`: the fixed pacing sleep
(`time.sleep(2)`), an API call, and a backoff sleep (`time.sleep(backoff)`). -/
inductive SendEv
  | pace
  | attempt
  | backoffSleep (d : Nat)
deriving DecidableEq

/-- How `_safe_send` ends: a returned response, `return None` after the
retry budget, or a re-raised non-rate-limit exception. -/
inductive SendOutcome
  | returned (r : Nat)
  | gaveUp
  | raised (msg : String)
deriving DecidableEq

/-- The event trace and final outcome of one `_safe_send` invocation. -/
structure SendTrace where
  events : List SendEv
  outcome : SendOutcome
deriving DecidableEq

/-- The rate-limit detection of `_safe_send`:
`"429" in str(e) or "Resource exhausted" in str(e)`. -/
def isRateLimitMsg (m : String) : Bool :=
  pyIn "429" m || pyIn "Resource exhausted" m

/-- The retry loop of `_safe_send`, with the k-th attempt's result given by
`call k`: pace, call; return on success; on a rate-limit failure sleep the
current backoff, double it, decrement retries; re-raise anything else. -/
def safeSendAux (call : Nat → CallRes) : Nat → Nat → Nat → SendTrace
  | 0, _, _ => ⟨[], SendOutcome.gaveUp⟩
  | retries + 1, backoff, i =>
    match call i with
    | CallRes.ok resp => ⟨[SendEv.pace, SendEv.attempt], SendOutcome.returned resp⟩
    | CallRes.err m =>
      if isRateLimitMsg m then
        let t := safeSendAux call retries (backoff * 2) (i + 1)
        ⟨SendEv.pace :: SendEv.attempt :: SendEv.backoffSleep backoff :: t.events, t.outcome⟩
      else ⟨[SendEv.pace, SendEv.attempt], SendOutcome.raised m⟩

/-- `_safe_send`: 3 retries, backoff starting at 10 time-units. -/
def safeSend (call : Nat → CallRes) : SendTrace :=
  safeSendAux call 3 10 0

/-- The backoff sleeps of a trace, in order. -/
def backoffDelays (t : SendTrace) : List Nat :=
  t.events.filterMap fun e =>
    match e with
    | SendEv.backoffSleep d => some d
    | _ => none

/-- Whether every API call in the event list is immediately preceded by the
fixed pacing sleep. -/
def paceOk : List SendEv → Bool
  | [] => true
  | SendEv.attempt :: _ => false
  | SendEv.pace :: SendEv.attempt :: rest => paceOk rest
  | SendEv.pace :: rest => paceOk rest
  | SendEv.backoffSleep _ :: rest => paceOk rest

/-! ## Validation closure (src/agents/validation_agent.py and the caller in
src/app/agents/agent.py lines 272-325) -/

/-- The strict status taxonomy of `validate_fix`. -/
inductive VStatus
  | resolved
  | failed
  | inconclusive
deriving DecidableEq

/-- The free-text parser at the end of `validate_fix` (lines 224-229):
RESOLVED only when the upper-cased text contains "RESOLVED" and contains
neither "NOT" nor "FAILED"; FAILED on "FAILED" or "NOT RESOLVED";
otherwise INCONCLUSIVE. -/
def parseValidationStatus (text : String) : VStatus :=
  if pyIn "RESOLVED" (pyUpper text) && !(pyIn "NOT" (pyUpper text)) &&
      !(pyIn "FAILED" (pyUpper text)) then VStatus.resolved
  else if pyIn "FAILED" (pyUpper text) || pyIn "NOT RESOLVED" (pyUpper text) then
    VStatus.failed
  else VStatus.inconclusive

/-- The validation result dictionary as read by the caller: its status, and
the `validated` flag (`validation_result.get('validated', False)`;
`validate_fix` itself never sets the key, so it is `false` there). -/
structure VRes where
  status : VStatus
  validated : Bool
deriving DecidableEq

/-- The `validation_agent` tool in agent.py: call the validator (an
exception is replaced by `{'status': 'RESOLVED', 'validated': True}`),
treat the result as validated when the flag is set or the status is
RESOLVED, and on validation add the incident to memory with confidence
0.85. Returns whether "VALIDATION PASSED" was reported, together with the
updated memory list. -/
def validationAgentCall (vres : Except String VRes) (mems : List MemEntry)
    (incident specialist : String) (now : Nat) : Bool × List MemEntry :=
  let result : VRes :=
    match vres with
    | Except.error _ => { status := VStatus.resolved, validated := true }
    | Except.ok r => r
  if result.validated || result.status == VStatus.resolved then
    (true, addIncident now mems [incident] ("Fixed by " ++ specialist)
      ("Fixed by " ++ specialist ++ ". Incident: " ++ incident) [specialist] 0 (85 / 100))
  else (false, mems)

/-! ## GCP agent oracle loop (GCPAgent._run_agent_loop, gcp_agent.py
lines 477-546)

The oracle (`chat` plus `_safe_send`) is modelled as a response script
`Nat → Option GcpPart`: `script 0` is the reply to the initial prompt,
`script i` the reply to the i-th function response, and `none` a
`_safe_send` that exhausted its retries. The loop reads only
`response.candidates[0].content.parts[0]`, modelled as a single part. -/

/-- The first part of an oracle response: a function call or free text. -/
inductive GcpPart
  | funCall (name : String) (args : Cmd)
  | text (t : String)
deriving DecidableEq

/-- `response.text`, consulted only on free-text responses. -/
def partText : GcpPart → String
  | GcpPart.text t => t
  | GcpPart.funCall _ _ => ""

/-- The loop's resolution heuristic on a terminal text turn:
`"RESOLVED" in response.text or "fixed" in response.text.lower()`. -/
def gcpMarker (t : String) : Bool :=
  pyIn "RESOLVED" t || pyIn "fixed" (pyLower t)

/-- The Python `or`-chain `args.get('pod_name') or args.get('deployment_name') or 'N/A'`. -/
def gkeTarget (args : Cmd) : String :=
  if pyTruthy args.pod_name then optStr args.pod_name
  else if pyTruthy args.deployment_name then optStr args.deployment_name
  else "N/A"

/-- One tool dispatch of the GCP loop: record the action, run the matching
executor, summarize its status into findings; an unrecognized tool name
changes nothing (only the textual tool output, which is discarded here). -/
def gcpDispatch (region : String) (gke gcs : Cmd → ExecResult)
    (name : String) (args : Cmd) (findings actions : List String) :
    List String × List String :=
  if name == "manage_gke" then
    let res := gke { action := args.action
                     nspace := some ((args.nspace).getD "default")
                     pod_name := args.pod_name
                     deployment_name := args.deployment_name
                     replicas := args.replicas
                     cluster_name := args.cluster_name
                     location := some ((args.location).getD region) }
    (findings ++ ["GKE " ++ optStr args.action ++ ": " ++ res.status],
     actions ++ ["GKE: " ++ optStr args.action ++ " on " ++ gkeTarget args])
  else if name == "manage_gcs" then
    let res := gcs { action := args.action
                     bucket_name := args.bucket_name
                     pfx := args.pfx }
    (findings ++ ["GCS " ++ optStr args.action ++ ": " ++ res.status],
     actions ++ ["GCS: " ++ optStr args.action ++ " on " ++ optStr args.bucket_name])
  else (findings, actions)

/-- Result of the loop body: accumulated findings and actions, the
`is_resolved` flag, the final `response` value, and the number of
iterations the `while` loop ran. -/
structure LoopOut where
  findings : List String
  actions : List String
  isResolved : Bool
  finalResp : Option GcpPart
  steps : Nat
deriving DecidableEq

/-- The `while response and step < max_steps` loop of `_run_agent_loop`:
the fuel is `max_steps - step`. A function-call part is dispatched and the
next oracle response fetched; a text part is the terminal turn (append to
findings, set `is_resolved` by the marker heuristic, break). -/
def runAgentLoopAux (region : String) (gke gcs : Cmd → ExecResult)
    (script : Nat → Option GcpPart) :
    Nat → Nat → Option GcpPart → List String → List String → Nat → LoopOut
  | 0, _, resp, findings, actions, steps =>
    ⟨findings, actions, false, resp, steps⟩
  | _ + 1, _, none, findings, actions, steps =>
    ⟨findings, actions, false, none, steps⟩
  | fuel + 1, i, some part, findings, actions, steps =>
    match part with
    | GcpPart.funCall name args =>
      let fa := gcpDispatch region gke gcs name args findings actions
      runAgentLoopAux region gke gcs script fuel (i + 1) (script i) fa.1 fa.2 (steps + 1)
    | GcpPart.text t =>
      ⟨findings ++ [t], actions, gcpMarker t, some (GcpPart.text t), steps + 1⟩

/-- `_run_agent_loop` up to the final dictionary: initial response
`script 0`, `max_steps = 5`. -/
def runAgentLoopOut (region : String) (gke gcs : Cmd → ExecResult)
    (script : Nat → Option GcpPart) : LoopOut :=
  runAgentLoopAux region gke gcs script 5 1 (script 0) [] [] 0

/-- The dictionary `_run_agent_loop` returns: RESOLVED or NEEDS_HANDOFF,
solution `response.text if is_resolved and response else None`, and
`suggested_specialist` unconditionally `"linux_agent"`. -/
def runAgentLoop (region : String) (gke gcs : Cmd → ExecResult)
    (script : Nat → Option GcpPart) : Outcome :=
  let r := runAgentLoopOut region gke gcs script
  { status := if r.isResolved then OStatus.resolved else OStatus.needsHandoff
    findings := r.findings
    actions_taken := r.actions
    solution :=
      match r.finalResp, r.isResolved with
      | some p, true => some (partText p)
      | _, _ => none
    suggested_specialist := some "linux_agent" }

/-! ## Linux specialist oracle loop (LinuxSpecialist.troubleshoot,
linux_agent.py lines 146-229). Responses here may hold several parts. -/

/-- One part of a linux-agent oracle response. -/
inductive LinPart
  | funCall (name : String) (command : Option String)
  | text (t : String)
deriving DecidableEq

/-- State threaded through one response's parts: actions, findings,
`is_resolved`, `function_calls_found`. -/
structure LinState where
  actions : List String
  findings : List String
  isResolved : Bool
  fcf : Bool
deriving DecidableEq

/-- Processing of one part (the `for part in parts` body): dispatch
`run_linux_command` through the GCE executor's `execute_ssh_command`
action, summarize the result into findings (an `SSH_FAILED` status resets
`is_resolved`); an empty text part is falsy and skipped; a non-empty text
part is appended to findings and checked against the marker heuristic. -/
def linProcessPart (lexec : Cmd → ExecResult) (vm zone : String)
    (st : LinState) : LinPart → LinState
  | LinPart.funCall name cmd =>
    if name == "run_linux_command" then
      let res := lexec { action := some "execute_ssh_command"
                         zone := some zone
                         instance_name := some vm
                         ssh_command := cmd }
      if res.status == "SUCCESS" then
        { st with
          actions := st.actions ++ ["Running: " ++ optStr cmd]
          findings := st.findings ++
            ["[" ++ optStr cmd ++ "] → " ++
              (((res.output).getD "").take 150).replace "\n" " " ++ "..."]
          fcf := true }
      else if res.status == "SSH_FAILED" then
        { st with
          actions := st.actions ++ ["Running: " ++ optStr cmd]
          findings := st.findings ++
            ["CRITICAL: Cannot SSH to VM - " ++ ((res.message).getD "connection failed")]
          isResolved := false
          fcf := true }
      else
        { st with
          actions := st.actions ++ ["Running: " ++ optStr cmd]
          findings := st.findings ++
            ["[" ++ optStr cmd ++ "] → ERROR: " ++ (((res.message).getD "unknown").take 100)]
          fcf := true }
    else { st with fcf := true }
  | LinPart.text t =>
    if t == "" then st
    else
      { st with
        findings := st.findings ++ [t]
        isResolved := if gcpMarker t then true else st.isResolved }

/-- Fold the part processor over a whole response. -/
def linProcessParts (lexec : Cmd → ExecResult) (vm zone : String)
    (parts : List LinPart) (st : LinState) : LinState :=
  parts.foldl (linProcessPart lexec vm zone) st

/-- The `while response and step < max_steps` loop of
LinuxSpecialist.troubleshoot: process all parts of the response; if any
function call was found, send the batched function responses and continue,
otherwise break. -/
def linuxLoopAux (lexec : Cmd → ExecResult) (script : Nat → Option (List LinPart))
    (vm zone : String) :
    Nat → Nat → Option (List LinPart) → List String → List String → Bool → Nat → LoopOut
  | 0, _, _, findings, actions, isRes, steps =>
    ⟨findings, actions, isRes, none, steps⟩
  | _ + 1, _, none, findings, actions, isRes, steps =>
    ⟨findings, actions, isRes, none, steps⟩
  | fuel + 1, i, some parts, findings, actions, isRes, steps =>
    let st := linProcessParts lexec vm zone parts
      ⟨actions, findings, isRes, false⟩
    if st.fcf then
      linuxLoopAux lexec script vm zone fuel (i + 1) (script i)
        st.findings st.actions st.isResolved (steps + 1)
    else ⟨st.findings, st.actions, st.isResolved, none, steps + 1⟩

/-- LinuxSpecialist.troubleshoot's loop: initial response `script 0`,
`max_steps = 5`. (Only the loop statistics are needed here; the final
response value is not tracked.) -/
def linuxLoopOut (lexec : Cmd → ExecResult) (script : Nat → Option (List LinPart))
    (vm zone : String) : LoopOut :=
  linuxLoopAux lexec script vm zone 5 1 (script 0) [] [] false 0

/-! ## Deterministic GCE decision tree (GCPAgent._handle_gce, gcp_agent.py
lines 61-267). No oracle is involved; the adapter responses form the
environment. -/

/-- The context fields `_handle_gce` reads (discovery output). -/
structure GceCtx where
  resource_name : String := ""
  zone : String := ""
  external_ip : Option String := none
deriving DecidableEq

/-- The adapter responses `_handle_gce` can observe: one result per
executor call it makes, the firewall-rule creator keyed by rule name,
ports and network, and the `curl` health probe (`Except.error` = the
subprocess raised). -/
structure GceEnv where
  instanceInfo : ExecResult
  startResult : ExecResult
  ipResult : ExecResult
  fwResult : ExecResult
  createRule : String → List String → String → ExecResult
  healthCheck : Except String String

/-- The test `if not external_ip or external_ip == 'None' or
external_ip.strip() == ''`. -/
def noExternalIp : Option String → Bool
  | none => true
  | some s => s == "" || s == "None" || pyStrip s == ""

/-- The firewall-fixing block for one port: given the blocking findings,
attempt the rule creation, and return updated findings, actions and the
`firewall_fixed` flag. -/
def fwFixStep (createRes : ExecResult) (ruleName : String)
    (blockFindings : List String) (findings actions : List String)
    (fixedSoFar : Bool) : List String × List String × Bool :=
  if createRes.status == "SUCCESS" then
    (findings ++ blockFindings ++ ["SUCCESS: " ++ optStr createRes.message],
     actions ++ ["Created firewall rule: " ++ ruleName], true)
  else
    (findings ++ blockFindings ++
      [(if ruleName == "allow-ssh" then "Failed to create SSH rule: "
        else if ruleName == "allow-http" then "Failed to create HTTP rule: "
        else "Failed to create HTTPS rule: ") ++ optStr createRes.message],
     actions, fixedSoFar)

/-- The `curl` health probe of `_handle_gce` (lines 237-253) and the
fall-through handoff after it. -/
def handleGceHealth (env : GceEnv) (externalIp : String)
    (findings actions : List String) : Outcome :=
  match env.healthCheck with
  | Except.ok code =>
    if code != "" && (pyStartsWith code "2" || pyStartsWith code "3") then
      { status := OStatus.resolved
        findings := findings ++
          ["HTTP health check PASSED! Status code: " ++ code,
           "Web server is accessible from external network!"]
        actions_taken := actions
        solution := some ("Web server is accessible at http://" ++ externalIp ++
          " (HTTP " ++ code ++
          "). The reported incident may have been temporary or has already been resolved.") }
    else
      { status := OStatus.needsHandoff
        findings := findings ++ ["HTTP health check returned: " ++ code,
          "Issue is likely at OS/application level."]
        actions_taken := actions
        suggested_specialist := some "linux_agent" }
  | Except.error e =>
    { status := OStatus.needsHandoff
      findings := findings ++ ["HTTP health check failed: " ++ e,
        "Issue is likely at OS/application level."]
      actions_taken := actions
      suggested_specialist := some "linux_agent" }


/-- The three per-port checks, the `firewall_fixed` short-circuit, the
health probe, and the final OS-level handoff of `_handle_gce`. -/
def handleGceFwChecks (env : GceEnv) (externalIp : String)
    (findings : List String) (sshAllowed httpAllowed httpsAllowed : Bool)
    (network : String) : Outcome :=
  let s1 :=
    if sshAllowed then (findings, ([] : List String), false)
    else fwFixStep (env.createRule "allow-ssh" ["22"] network) "allow-ssh"
      ["FIREWALL BLOCKING SSH (Port 22)! SSH BLOCKED",
       "Attempting to create allow-ssh firewall rule..."] findings [] false
  let s2 :=
    if httpAllowed then s1
    else fwFixStep (env.createRule "allow-http" ["80"] network) "allow-http"
      ["FIREWALL BLOCKING HTTP! HTTP: BLOCKED, HTTPS: " ++
         (if httpsAllowed then "allowed" else "BLOCKED"),
       "Attempting to create allow-http firewall rule..."] s1.1 s1.2.1 s1.2.2
  let s3 :=
    if httpsAllowed then s2
    else fwFixStep (env.createRule "allow-https" ["443"] network) "allow-https"
      ["FIREWALL BLOCKING HTTPS!",
       "Attempting to create allow-https firewall rule..."] s2.1 s2.2.1 s2.2.2
  if s3.2.2 then
    { status := OStatus.resolved
      findings := s3.1
      actions_taken := s3.2.1
      solution := some "Created firewall rules to allow access (SSH/HTTP/HTTPS)"
      suggested_specialist := some "linux_agent" }
  else if httpAllowed && httpsAllowed then
    handleGceHealth env externalIp
      (s3.1 ++ ["Firewall rules OK: HTTP: allowed, HTTPS: allowed",
        "Performing HTTP health check on " ++ externalIp ++ "..."])
      s3.2.1
  else
    { status := OStatus.needsHandoff
      findings := s3.1 ++ ["Issue is likely at OS/application level."]
      actions_taken := s3.2.1
      suggested_specialist := some "linux_agent" }

/-- The firewall-checking part of `_handle_gce` (lines 153-261). -/
def handleGceFirewall (env : GceEnv) (externalIp : String)
    (findings : List String) : Outcome :=
  if env.fwResult.status == "SUCCESS" then
    handleGceFwChecks env externalIp findings
      ((env.fwResult.ssh_allowed).getD false)
      ((env.fwResult.http_allowed).getD false)
      ((env.fwResult.https_allowed).getD false)
      ((env.fwResult.network).getD "default")
  else
    { status := OStatus.needsHandoff
      findings := findings ++
        ["Could not check firewall: " ++ optStr env.fwResult.message,
         "Issue is likely at OS/application level."]
      actions_taken := []
      suggested_specialist := some "linux_agent" }

/-- The part of `_handle_gce` after the status fetch succeeded. -/
def handleGceRunning (env : GceEnv) (ctx : GceCtx) (instStatus : String)
    (findings : List String) : Outcome :=
  if instStatus == "TERMINATED" || instStatus == "STOPPED" then
    if env.startResult.status == "SUCCESS" then
      { status := OStatus.needsHandoff
        findings := findings ++ ["CRITICAL: VM is " ++ instStatus ++ "!",
          "VM has been started. Need to re-check state after boot."]
        actions_taken := ["Started VM " ++ ctx.resource_name]
        solution := some ("Started VM " ++ ctx.resource_name ++
          ". Please re-discover to check external IP and continue diagnosis.")
        suggested_specialist := some "discovery_agent" }
    else
      { status := OStatus.unresolved
        findings := findings ++ ["CRITICAL: VM is " ++ instStatus ++ "!",
          "Failed to start VM: " ++ optStr env.startResult.message]
        actions_taken := [] }
  else if instStatus == "RUNNING" then
    if noExternalIp ctx.external_ip then
      if env.ipResult.status == "SUCCESS" then
        { status := OStatus.resolved
          findings := findings ++ ["VM is RUNNING but has NO EXTERNAL IP"]
          actions_taken := ["Assigned external IP: " ++ (env.ipResult.external_ip).getD "assigned"]
          solution := some ("Assigned external IP " ++
            (env.ipResult.external_ip).getD "assigned" ++ " to VM") }
      else
        { status := OStatus.unresolved
          findings := findings ++ ["VM is RUNNING but has NO EXTERNAL IP",
            "Failed to assign IP: " ++ optStr env.ipResult.message]
          actions_taken := [] }
    else
      handleGceFirewall env (optStr ctx.external_ip)
        (findings ++ ["VM is RUNNING with external IP: " ++ optStr ctx.external_ip])
  else
    -- neither stopped nor running: the Python function falls off the `try`
    -- and returns the initial INVESTIGATING dictionary
    { status := OStatus.investigating
      findings := findings
      actions_taken := [] }

/-- GCPAgent._handle_gce, translated branch by branch. -/
def handleGce (env : GceEnv) (ctx : GceCtx) : Outcome :=
  if ctx.resource_name == "" || ctx.zone == "" then
    { status := OStatus.needsHandoff
      findings := ["Missing VM name or zone in context"]
      actions_taken := []
      suggested_specialist := some "linux_agent" }
  else if env.instanceInfo.status != "SUCCESS" then
    { status := OStatus.needsHandoff
      findings := ["Could not get VM status: " ++ optStr env.instanceInfo.message]
      actions_taken := [] }
  else
    handleGceRunning env ctx ((env.instanceInfo.instance_status).getD "UNKNOWN")
      ["VM Status: " ++ (env.instanceInfo.instance_status).getD "UNKNOWN"]

/-! ## First-match index of the feedback scan -/

/-- Index of the first entry whose id matches, mirroring the scan order of
MemoryStore.feedback. -/
def firstMatchIdx (memory_id : String) : List MemEntry → Option Nat
  | [] => none
  | m :: rest =>
    if m.id == memory_id then some 0
    else (firstMatchIdx memory_id rest).map (· + 1)

/-! ## Concrete inputs used in the counterexamples and witnesses -/

/-- An adapter that reports plain success for every command. -/
def performOk : Cmd → ExecResult := fun _ => { status := "SUCCESS" }

/-- A command dictionary holding only an action name. -/
def actionCmd (a : String) : Cmd := { action := some a }

/-- The read-only GKE command `{'action': 'get_pod_details'}`. -/
def cmdPodDetails : Cmd := actionCmd "get_pod_details"

/-- An oracle that immediately answers with the free text "NOT RESOLVED". -/
def scriptNotResolved : Nat → Option GcpPart :=
  fun _ => some (GcpPart.text "NOT RESOLVED")

/-- Environment: the VM is TERMINATED and starting it succeeds. -/
def envStopped : GceEnv :=
  { instanceInfo := { status := "SUCCESS", instance_status := some "TERMINATED" }
    startResult := { status := "SUCCESS" }
    ipResult := { status := "ERROR" }
    fwResult := { status := "ERROR" }
    createRule := fun _ _ _ => { status := "ERROR" }
    healthCheck := Except.error "unused" }

/-- A context naming a VM and zone but no external address. -/
def ctxStd : GceCtx := { resource_name := "web-1", zone := "us-central1-a" }

/-- Environment: the VM is RUNNING, the firewall check reports ports 22 and
80 blocked with 443 allowed, and rule creation succeeds. -/
def envFw : GceEnv :=
  { instanceInfo := { status := "SUCCESS", instance_status := some "RUNNING" }
    startResult := { status := "ERROR" }
    ipResult := { status := "ERROR" }
    fwResult := { status := "SUCCESS", ssh_allowed := some false,
                  http_allowed := some false, https_allowed := some true,
                  network := some "default" }
    createRule := fun _ _ _ => { status := "SUCCESS", message := some "rule created" }
    healthCheck := Except.error "unused" }

/-- A context naming a VM, zone and an external address. -/
def ctxIp : GceCtx :=
  { resource_name := "web-1", zone := "us-central1-a", external_ip := some "34.1.2.3" }

/-- An oracle channel that is rate-limited on every attempt. -/
def rlCall : Nat → CallRes := fun _ => CallRes.err "Resource exhausted"

/-- An oracle channel whose first attempt raises a non-rate-limit error. -/
def fatalCall : Nat → CallRes := fun _ => CallRes.err "boom"

/-- An oracle channel that is rate-limited once and then raises a fatal error. -/
def rlThenFatal : Nat → CallRes :=
  fun i => if i == 0 then CallRes.err "Resource exhausted" else CallRes.err "boom"

/-- A stored memory entry whose confidence sits exactly at the 0.99 cap. -/
def e99 : MemEntry :=
  { id := "mem-1", timestamp := 0, symptoms := ["disk full"], diagnosis := "d"
    solution := "s", specialists := ["linux_agent"], cost_impact := 0
    confidence := 99 / 100, success_count := 1, failure_count := 0 }

/-- A stored memory entry with confidence 0.5. -/
def eHalf : MemEntry :=
  { id := "mem-2", timestamp := 0, symptoms := ["oom"], diagnosis := "d"
    solution := "s", specialists := ["linux_agent"], cost_impact := 0
    confidence := 1 / 2, success_count := 1, failure_count := 0 }

/-- A stored memory entry with id "mem-a". -/
def eA : MemEntry :=
  { id := "mem-a", timestamp := 0, symptoms := ["503"], diagnosis := "d"
    solution := "s", specialists := ["gcp_agent"], cost_impact := 0
    confidence := 4 / 5, success_count := 1, failure_count := 0 }

/-- A stored memory entry with id "mem-b". -/
def eB : MemEntry :=
  { id := "mem-b", timestamp := 0, symptoms := ["404"], diagnosis := "d"
    solution := "s", specialists := ["gcp_agent"], cost_impact := 0
    confidence := 3 / 5, success_count := 1, failure_count := 0 }

/-- A search entry with stored confidence 0 (so any positive threshold
discards it). -/
noncomputable def e0Search : SearchEntry := ⟨0, 0, []⟩

/-! # Theorems -/

/-! ## Helper lemmas -/

/-- The GCP loop's step counter grows by at most the remaining fuel. -/
theorem gcpAux_steps_le (region : String) (gke gcs : Cmd → ExecResult)
    (script : Nat → Option GcpPart) :
    ∀ fuel i resp findings actions steps,
      (runAgentLoopAux region gke gcs script fuel i resp findings actions steps).steps ≤
        steps + fuel
  | 0, _, resp, _, _, steps => by simp [runAgentLoopAux]
  | fuel + 1, i, none, _, _, steps => by simp [runAgentLoopAux]
  | fuel + 1, i, some (GcpPart.funCall name args), findings, actions, steps => by
    simp only [runAgentLoopAux]
    calc (runAgentLoopAux region gke gcs script fuel (i + 1) (script i)
            (gcpDispatch region gke gcs name args findings actions).1
            (gcpDispatch region gke gcs name args findings actions).2 (steps + 1)).steps
        ≤ (steps + 1) + fuel :=
          gcpAux_steps_le region gke gcs script fuel (i + 1) (script i) _ _ (steps + 1)
      _ = steps + (fuel + 1) := by omega
  | fuel + 1, i, some (GcpPart.text t), _, _, steps => by
    simp only [runAgentLoopAux]
    omega

/-- The linux loop's step counter grows by at most the remaining fuel. -/
theorem linAux_steps_le (lexec : Cmd → ExecResult)
    (script : Nat → Option (List LinPart)) (vm zone : String) :
    ∀ fuel i resp findings actions isRes steps,
      (linuxLoopAux lexec script vm zone fuel i resp findings actions isRes steps).steps ≤
        steps + fuel
  | 0, _, resp, _, _, _, steps => by simp [linuxLoopAux]
  | fuel + 1, i, none, _, _, _, steps => by simp [linuxLoopAux]
  | fuel + 1, i, some parts, findings, actions, isRes, steps => by
    simp only [linuxLoopAux]
    cases h : (linProcessParts lexec vm zone parts ⟨actions, findings, isRes, false⟩).fcf with
    | true =>
      rw [if_pos rfl]
      calc (linuxLoopAux lexec script vm zone fuel (i + 1) (script i) _ _ _ (steps + 1)).steps
          ≤ (steps + 1) + fuel :=
            linAux_steps_le lexec script vm zone fuel (i + 1) (script i) _ _ _ (steps + 1)
        _ = steps + (fuel + 1) := by omega
    | false =>
      rw [if_neg (by simp)]
      show steps + 1 ≤ steps + (fuel + 1)
      omega

/-- When the GCP loop ends resolved, its final response is present. -/
theorem gcpAux_resolved_some (region : String) (gke gcs : Cmd → ExecResult)
    (script : Nat → Option GcpPart) :
    ∀ fuel i resp findings actions steps,
      (runAgentLoopAux region gke gcs script fuel i resp findings actions steps).isResolved = true →
      (runAgentLoopAux region gke gcs script fuel i resp findings actions steps).finalResp.isSome = true
  | 0, _, resp, _, _, steps => by simp [runAgentLoopAux]
  | fuel + 1, i, none, _, _, steps => by simp [runAgentLoopAux]
  | fuel + 1, i, some (GcpPart.funCall name args), findings, actions, steps => by
    simp only [runAgentLoopAux]
    exact gcpAux_resolved_some region gke gcs script fuel (i + 1) (script i) _ _ (steps + 1)
  | fuel + 1, i, some (GcpPart.text t), _, _, steps => by
    simp [runAgentLoopAux]

/-- Backoff sleeps of `_safe_send` are bounded below by the current backoff
and strictly increasing, for a positive starting backoff. -/
theorem safeSendAux_backoff_mono (call : Nat → CallRes) :
    ∀ retries b i, 0 < b →
      List.Chain' (· < ·) (backoffDelays (safeSendAux call retries b i)) ∧
      ∀ d ∈ backoffDelays (safeSendAux call retries b i), b ≤ d
  | 0, b, i, _ => by simp [safeSendAux, backoffDelays]
  | retries + 1, b, i, hb => by
    simp only [safeSendAux]
    cases call i with
    | ok resp => simp [backoffDelays]
    | err m =>
      by_cases hrl : isRateLimitMsg m = true
      · simp only [hrl, if_true]
        have ih := safeSendAux_backoff_mono call retries (b * 2) (i + 1) (by omega)
        have hbd : backoffDelays
            ⟨SendEv.pace :: SendEv.attempt :: SendEv.backoffSleep b ::
              (safeSendAux call retries (b * 2) (i + 1)).events,
             (safeSendAux call retries (b * 2) (i + 1)).outcome⟩ =
            b :: backoffDelays (safeSendAux call retries (b * 2) (i + 1)) := by
          simp [backoffDelays]
        rw [hbd]
        constructor
        · rw [List.chain'_cons']
          refine ⟨?_, ih.1⟩
          intro y hy
          have hmem : y ∈ backoffDelays (safeSendAux call retries (b * 2) (i + 1)) := by
            cases hl : backoffDelays (safeSendAux call retries (b * 2) (i + 1)) with
            | nil => simp [hl] at hy
            | cons z zs => simp [hl] at hy; simp [hl, hy]
          have := ih.2 y hmem
          omega
        · intro d hd
          rcases List.mem_cons.mp hd with h | h
          · omega
          · have := ih.2 d h
            omega
      · simp only [hrl, if_false]
        simp [backoffDelays]

/-- Every API call of `_safe_send` is immediately preceded by the fixed
pacing sleep. -/
theorem safeSendAux_paceOk (call : Nat → CallRes) :
    ∀ retries b i, paceOk (safeSendAux call retries b i).events = true
  | 0, b, i => by simp [safeSendAux, paceOk]
  | retries + 1, b, i => by
    simp only [safeSendAux]
    cases call i with
    | ok resp => simp [paceOk]
    | err m =>
      by_cases hrl : isRateLimitMsg m = true
      · simp only [hrl, if_true]
        show paceOk (SendEv.pace :: SendEv.attempt :: SendEv.backoffSleep b ::
          (safeSendAux call retries (b * 2) (i + 1)).events) = true
        simp only [paceOk]
        exact safeSendAux_paceOk call retries (b * 2) (i + 1)
      · simp only [hrl, if_false]
        simp [paceOk]

/-! ## C3 — loop termination within 5 steps -/

/-- C3: for every oracle response sequence (and every adapter behaviour),
the tool-invocation loops of the GCP specialist (`_run_agent_loop`) and of
the linux specialist (`troubleshoot`) run at most 5 iterations: the step
counter at exit never exceeds the fixed maximum of 5. -/
theorem c3_loop_termination :
    (∀ (region : String) (gke gcs : Cmd → ExecResult) (script : Nat → Option GcpPart),
      (runAgentLoopOut region gke gcs script).steps ≤ 5) ∧
    (∀ (lexec : Cmd → ExecResult) (script : Nat → Option (List LinPart)) (vm zone : String),
      (linuxLoopOut lexec script vm zone).steps ≤ 5) := by
  constructor
  · intro region gke gcs script
    exact gcpAux_steps_le region gke gcs script 5 1 (script 0) [] [] 0
  · intro lexec script vm zone
    exact linAux_steps_le lexec script vm zone 5 1 (script 0) [] [] false 0

/-! ## C6 — reasoning-channel retry/backoff discipline -/

/-- C6: `_safe_send` behaves as specified. Under persistent rate limiting
the trace is exactly pace/call/sleep 10, pace/call/sleep 20,
pace/call/sleep 40, then it gives up with no response (None) rather than
raising — exactly 3 retries with strictly-increasing doubling delays.
For every channel behaviour the backoff sleeps are strictly increasing and
every call is preceded by the fixed pacing sleep. A non-rate-limit failure
propagates immediately with no backoff and no further attempt, both on the
first call and after an earlier rate-limited attempt. -/
theorem c6_backoff_discipline :
    safeSend rlCall =
      ⟨[SendEv.pace, SendEv.attempt, SendEv.backoffSleep 10,
        SendEv.pace, SendEv.attempt, SendEv.backoffSleep 20,
        SendEv.pace, SendEv.attempt, SendEv.backoffSleep 40],
       SendOutcome.gaveUp⟩ ∧
    (∀ call : Nat → CallRes, List.Chain' (· < ·) (backoffDelays (safeSend call))) ∧
    (∀ call : Nat → CallRes, paceOk (safeSend call).events = true) ∧
    safeSend fatalCall = ⟨[SendEv.pace, SendEv.attempt], SendOutcome.raised "boom"⟩ ∧
    safeSend rlThenFatal =
      ⟨[SendEv.pace, SendEv.attempt, SendEv.backoffSleep 10,
        SendEv.pace, SendEv.attempt], SendOutcome.raised "boom"⟩ := by
  refine ⟨by decide, ?_, ?_, by decide, by decide⟩
  · intro call
    exact (safeSendAux_backoff_mono call 3 10 0 (by omega)).1
  · intro call
    exact safeSendAux_paceOk call 3 10 0

/-! ## C1 — the Outcome invariant -/

/-- C1 counterexample: the GCP specialist's deterministic GCE handler, on a
TERMINATED VM whose start succeeds, returns status NEEDS_HANDOFF with
`solution` set (and `suggested_specialist` set), violating the Outcome
invariant `solution != null ⇔ status == RESOLVED`. -/
theorem c1_counterexample :
    ¬ outcomeInvariant (handleGce envStopped ctxStd) ∧
    (handleGce envStopped ctxStd).status = OStatus.needsHandoff ∧
    (handleGce envStopped ctxStd).solution.isSome = true := by
  refine ⟨?_, by decide, by decide⟩
  decide

/-- C1 amended: outcomes of the GCP specialist's oracle loop satisfy the
solution half of the invariant — `solution` is set exactly when the status
is RESOLVED — but `suggested_specialist` is always set (to "linux_agent")
regardless of status, so the handoff half of the invariant fails whenever
the loop resolves. -/
theorem c1_amended_loop_invariant :
    ∀ (region : String) (gke gcs : Cmd → ExecResult) (script : Nat → Option GcpPart),
      ((runAgentLoop region gke gcs script).solution.isSome ↔
        (runAgentLoop region gke gcs script).status = OStatus.resolved) ∧
      (runAgentLoop region gke gcs script).suggested_specialist = some "linux_agent" := by
  intro region gke gcs script
  constructor
  · unfold runAgentLoop
    cases hr : (runAgentLoopOut region gke gcs script).isResolved with
    | false =>
      cases hf : (runAgentLoopOut region gke gcs script).finalResp with
      | none => simp [hr, hf]
      | some p => simp [hr, hf]
    | true =>
      have hsome : (runAgentLoopOut region gke gcs script).finalResp.isSome = true :=
        gcpAux_resolved_some region gke gcs script 5 1 (script 0) [] [] 0 hr
      rcases Option.isSome_iff_exists.mp hsome with ⟨p, hp⟩
      simp [hr, hp]
  · rfl

/-! ## C4 — terminal free-text turn and the resolution heuristic -/

/-- C4 counterexample: a free-text oracle turn saying "NOT RESOLVED" does
produce a RESOLVED outcome from the GCP loop — the substring heuristic
`"RESOLVED" in text` matches inside "NOT RESOLVED" and no negation check
is performed, contradicting the claim. -/
theorem c4_counterexample :
    (runAgentLoop "us-central1" performOk performOk scriptNotResolved).status =
      OStatus.resolved ∧
    (runAgentLoop "us-central1" performOk performOk scriptNotResolved).findings =
      ["NOT RESOLVED"] := by
  decide

/-- C4 amended: a free-text first turn is terminal — the loop stops after
one step, appends the text to findings — and the outcome is RESOLVED
exactly when the text contains the substring "RESOLVED" or its lowercase
contains "fixed", with no negation check whatsoever; the solution is the
text itself exactly in that case. (The validation closure's parser, by
contrast, does reject negated text: it maps "NOT RESOLVED" to FAILED.) -/
theorem c4_amended_terminal_text :
    (∀ (region : String) (gke gcs : Cmd → ExecResult)
        (script : Nat → Option GcpPart) (t : String),
      (runAgentLoop region gke gcs
          (fun n => if n == 0 then some (GcpPart.text t) else script n)).findings = [t] ∧
      ((runAgentLoop region gke gcs
          (fun n => if n == 0 then some (GcpPart.text t) else script n)).status =
        OStatus.resolved ↔ gcpMarker t = true) ∧
      (runAgentLoop region gke gcs
          (fun n => if n == 0 then some (GcpPart.text t) else script n)).solution =
        (if gcpMarker t then some t else none) ∧
      (runAgentLoopOut region gke gcs
          (fun n => if n == 0 then some (GcpPart.text t) else script n)).steps = 1) ∧
    parseValidationStatus "NOT RESOLVED" = VStatus.failed := by
  constructor
  · intro region gke gcs script t
    have hout : runAgentLoopOut region gke gcs
        (fun n => if n == 0 then some (GcpPart.text t) else script n) =
        ⟨[t], [], gcpMarker t, some (GcpPart.text t), 1⟩ := rfl
    refine ⟨rfl, ?_, ?_, ?_⟩
    · simp only [runAgentLoop, hout]
      cases hm : gcpMarker t <;> simp [hm]
    · simp only [runAgentLoop, hout]
      cases hm : gcpMarker t <;> simp [hm, partText]
    · rw [hout]
  · decide

/-! ## C2 — the dry-run safety interlock -/

/-- C2 counterexample: the container-orchestration (GKE) executor in
dry-run mode does not execute the read-only action `get_pod_details`
normally — it returns the DRY_RUN short-circuit instead of the adapter's
result, contradicting the claim that every adapter lets read-only actions
through. -/
theorem c2_counterexample :
    gkeExecuteCommand true performOk cmdPodDetails ≠ performOk cmdPodDetails ∧
    (gkeExecuteCommand true performOk cmdPodDetails).status = "DRY_RUN" := by
  decide

/-- C2 amended: the compute (GCE) and object-storage (GCS) executors let
their read-only actions run exactly as without dry-run and short-circuit
every state-changing action to DRY_RUN without invoking the adapter; the
container-orchestration (GKE) executor instead short-circuits every
command — read-only actions included — to DRY_RUN. -/
theorem c2_amended_dry_run :
    ∀ (perform : Cmd → ExecResult) (a : String) (c : Cmd),
      (a ∈ gceReadOnlyActions →
        gceExecuteCommand true perform (actionCmd a) =
          gceExecuteCommand false perform (actionCmd a)) ∧
      (a ∈ gceWriteActions →
        gceExecuteCommand true perform (actionCmd a) = mkDryRun (some a) (actionCmd a)) ∧
      (a ∈ gcsDryRunAllowed →
        gcsExecuteCommand true perform (actionCmd a) =
          gcsExecuteCommand false perform (actionCmd a)) ∧
      (a = "enable_public_access_prevention" →
        gcsExecuteCommand true perform (actionCmd a) = mkDryRun (some a) (actionCmd a)) ∧
      gkeExecuteCommand true perform c = mkDryRun c.action c := by
  intro perform a c
  refine ⟨?_, ?_, ?_, ?_, rfl⟩
  · intro h
    fin_cases h <;> rfl
  · intro h
    fin_cases h <;> rfl
  · intro h
    fin_cases h <;> rfl
  · intro h
    subst h
    rfl

/-- Witness for the hypotheses of `c2_amended_dry_run`, at the concrete
actions `get_instance_info` (GCE read-only), `start_instance` (GCE write),
`get_bucket_metadata` (GCS read-only) and `enable_public_access_prevention`
(GCS write). -/
theorem c2_amended_dry_run_witness :
    gceExecuteCommand true performOk (actionCmd "get_instance_info") =
      gceExecuteCommand false performOk (actionCmd "get_instance_info") ∧
    gceExecuteCommand true performOk (actionCmd "start_instance") =
      mkDryRun (some "start_instance") (actionCmd "start_instance") ∧
    gcsExecuteCommand true performOk (actionCmd "get_bucket_metadata") =
      gcsExecuteCommand false performOk (actionCmd "get_bucket_metadata") ∧
    gcsExecuteCommand true performOk (actionCmd "enable_public_access_prevention") =
      mkDryRun (some "enable_public_access_prevention")
        (actionCmd "enable_public_access_prevention") :=
  ⟨(c2_amended_dry_run performOk "get_instance_info" (actionCmd "get_instance_info")).1
      (by decide),
   (c2_amended_dry_run performOk "start_instance" (actionCmd "start_instance")).2.1
      (by decide),
   (c2_amended_dry_run performOk "get_bucket_metadata" (actionCmd "get_bucket_metadata")).2.2.1
      (by decide),
   (c2_amended_dry_run performOk "enable_public_access_prevention"
      (actionCmd "enable_public_access_prevention")).2.2.2.1 rfl⟩

/-! ## C5 — deterministic sub-protocol: ports 22 and 80 blocked -/

/-- C5 counterexample: on a RUNNING resource with an external address and
ports 22 and 80 blocked (443 allowed), `_handle_gce` does create exactly
the two permit rules and return RESOLVED, but `suggested_specialist` is
set (to "linux_agent"), not unset as the claim states. -/
theorem c5_counterexample :
    (handleGce envFw ctxIp).status = OStatus.resolved ∧
    (handleGce envFw ctxIp).actions_taken =
      ["Created firewall rule: allow-ssh", "Created firewall rule: allow-http"] ∧
    (handleGce envFw ctxIp).suggested_specialist ≠ none ∧
    (handleGce envFw ctxIp).suggested_specialist = some "linux_agent" := by
  refine ⟨by decide, by decide, by decide, by decide⟩

/-- C5 amended: whenever the VM status fetch reports RUNNING, the context
carries a usable external address, the firewall check reports SSH and HTTP
blocked with HTTPS allowed, and rule creation succeeds, `_handle_gce`
takes exactly the two permit-rule creations (allow-ssh for port 22,
allow-http for port 80), returns status RESOLVED — and sets the suggested
next specialist to "linux_agent" rather than leaving it unset. -/
theorem c5_amended_firewall_path :
    ∀ (env : GceEnv) (ctx : GceCtx),
      ctx.resource_name ≠ "" → ctx.zone ≠ "" →
      env.instanceInfo.status = "SUCCESS" →
      env.instanceInfo.instance_status = some "RUNNING" →
      noExternalIp ctx.external_ip = false →
      env.fwResult.status = "SUCCESS" →
      env.fwResult.ssh_allowed = some false →
      env.fwResult.http_allowed = some false →
      env.fwResult.https_allowed = some true →
      (env.createRule "allow-ssh" ["22"] ((env.fwResult.network).getD "default")).status =
        "SUCCESS" →
      (env.createRule "allow-http" ["80"] ((env.fwResult.network).getD "default")).status =
        "SUCCESS" →
      (handleGce env ctx).actions_taken =
        ["Created firewall rule: allow-ssh", "Created firewall rule: allow-http"] ∧
      (handleGce env ctx).status = OStatus.resolved ∧
      (handleGce env ctx).solution =
        some "Created firewall rules to allow access (SSH/HTTP/HTTPS)" ∧
      (handleGce env ctx).suggested_specialist = some "linux_agent" := by
  intro env ctx h1 h2 h3 h4 h5 h6 h7 h8 h9 h10 h11
  have hgce : handleGce env ctx =
      handleGceFwChecks env (optStr ctx.external_ip)
        (["VM Status: " ++ "RUNNING"] ++
          ["VM is RUNNING with external IP: " ++ optStr ctx.external_ip])
        false false true ((env.fwResult.network).getD "default") := by
    unfold handleGce handleGceRunning handleGceFirewall
    rw [if_neg (by simp [h1, h2]), if_neg (by simp [h3]), h4]
    simp only [Option.getD_some]
    rw [if_neg (by decide), if_pos (by decide), if_neg (by simp [h5]),
      if_pos (by simp [h6]), h7, h8, h9]
    simp only [Option.getD_some]
  rw [hgce]
  refine ⟨?_, ?_, ?_, ?_⟩ <;>
    simp [handleGceFwChecks, fwFixStep, h10, h11]

/-- Witness for the hypotheses of `c5_amended_firewall_path`, at the
concrete environment `envFw` and context `ctxIp`. -/
theorem c5_amended_firewall_path_witness :
    (handleGce envFw ctxIp).actions_taken =
      ["Created firewall rule: allow-ssh", "Created firewall rule: allow-http"] ∧
    (handleGce envFw ctxIp).status = OStatus.resolved ∧
    (handleGce envFw ctxIp).solution =
      some "Created firewall rules to allow access (SSH/HTTP/HTTPS)" ∧
    (handleGce envFw ctxIp).suggested_specialist = some "linux_agent" :=
  c5_amended_firewall_path envFw ctxIp (by decide) (by decide) (by decide) (by decide)
    (by decide) (by decide) (by decide) (by decide) (by decide) (by decide) (by decide)

/-! ## C7 — inconclusive validation versus erroring validation -/

/-- C7 counterexample: a validation that errors before probing is treated
as success by the caller — it reports "VALIDATION PASSED" and performs the
memory add — because the exception handler substitutes
`{'status': 'RESOLVED', 'validated': True}`. -/
theorem c7_counterexample :
    (validationAgentCall (Except.error "boom") [] "web down" "linux_agent" 42).1 = true ∧
    (validationAgentCall (Except.error "boom") [] "web down" "linux_agent" 42).2 ≠ [] := by
  refine ⟨by decide, by decide⟩

/-- C7 amended: a validation result of INCONCLUSIVE (or FAILED) is never
treated as success — no pass report and no memory add — and, for any
returned result, the pass report and the memory add occur exactly when the
`validated` flag is set or the status is RESOLVED; however, a validation
that raises is replaced by the caller with a RESOLVED/validated result, so
it is reported as passed and does trigger the memory add. -/
theorem c7_amended_validation :
    ∀ (mems : List MemEntry) (incident specialist msg : String) (now : Nat) (r : VRes),
      validationAgentCall (Except.ok ⟨VStatus.inconclusive, false⟩)
        mems incident specialist now = (false, mems) ∧
      validationAgentCall (Except.ok ⟨VStatus.failed, false⟩)
        mems incident specialist now = (false, mems) ∧
      (validationAgentCall (Except.ok r) mems incident specialist now).1 =
        (r.validated || r.status == VStatus.resolved) ∧
      (validationAgentCall (Except.ok r) mems incident specialist now).2 =
        (if r.validated || r.status == VStatus.resolved then
          addIncident now mems [incident] ("Fixed by " ++ specialist)
            ("Fixed by " ++ specialist ++ ". Incident: " ++ incident)
            [specialist] 0 (85 / 100)
        else mems) ∧
      (validationAgentCall (Except.error msg) mems incident specialist now).1 = true := by
  intro mems incident specialist msg now r
  refine ⟨rfl, rfl, ?_, ?_, rfl⟩
  · unfold validationAgentCall
    cases h : (r.validated || r.status == VStatus.resolved) <;> simp [h]
  · unfold validationAgentCall
    cases h : (r.validated || r.status == VStatus.resolved) <;> simp [h]

/-! ## C8 — feedback monotonicity -/

/-- C8 counterexample: for a stored entry already at the 0.99 confidence
cap, `feedback(id, True)` leaves the confidence at 0.99 — no strict
increase takes place. -/
theorem c8_counterexample :
    ((feedbackList 5 "mem-1" true [e99]).1.headD e99).confidence = 99 / 100 ∧
    ¬ (e99.confidence < ((feedbackList 5 "mem-1" true [e99]).1.headD e99).confidence) := by
  have h1 : ((feedbackList 5 "mem-1" true [e99]).1.headD e99).confidence =
      min ((99 : Rat) / 100) ((99 : Rat) / 100 * (11 / 10)) := rfl
  have h2 : min ((99 : Rat) / 100) ((99 : Rat) / 100 * (11 / 10)) = 99 / 100 :=
    min_eq_left (by norm_num)
  constructor
  · rw [h1, h2]
  · rw [h1, h2]
    have h3 : e99.confidence = (99 : Rat) / 100 := rfl
    rw [h3]
    norm_num

/-- C8 amended: `feedback(id, True)` sets the matching entry's confidence
to min(0.99, old × 1.1) — a strict increase whenever 0 < old < 0.99 (at
the cap or at zero the confidence does not strictly increase) — and
`feedback(id, False)` halves it (new = old × 0.5 ≤ old/2, a strict
decrease whenever old > 0); both update the last-used timestamp, and the
store mutates the first entry whose id matches and saves. -/
theorem c8_amended_feedback :
    ∀ (now : Nat) (m : MemEntry) (rest : List MemEntry),
      (feedbackUpdate now true m).confidence = min (99 / 100) (m.confidence * (11 / 10)) ∧
      (0 < m.confidence → m.confidence < 99 / 100 →
        m.confidence < (feedbackUpdate now true m).confidence) ∧
      (feedbackUpdate now false m).confidence = m.confidence * (1 / 2) ∧
      (feedbackUpdate now false m).confidence ≤ m.confidence / 2 ∧
      (0 < m.confidence → (feedbackUpdate now false m).confidence < m.confidence) ∧
      (feedbackUpdate now true m).last_used = some now ∧
      (feedbackUpdate now false m).last_used = some now ∧
      feedbackList now m.id true (m :: rest) = (feedbackUpdate now true m :: rest, true) := by
  intro now m rest
  refine ⟨rfl, ?_, rfl, ?_, ?_, rfl, rfl, ?_⟩
  · intro h0 h1
    show m.confidence < min (99 / 100) (m.confidence * (11 / 10))
    refine lt_min h1 ?_
    nlinarith
  · show m.confidence * (1 / 2) ≤ m.confidence / 2
    linarith
  · intro h0
    show m.confidence * (1 / 2) < m.confidence
    linarith
  · unfold feedbackList
    simp

/-- Witness for the hypotheses of `c8_amended_feedback`, at the concrete
entry `eHalf` with confidence 0.5. -/
theorem c8_amended_feedback_witness :
    eHalf.confidence < (feedbackUpdate 3 true eHalf).confidence ∧
    (feedbackUpdate 3 false eHalf).confidence < eHalf.confidence :=
  ⟨(c8_amended_feedback 3 eHalf []).2.1 (by norm_num [eHalf]) (by norm_num [eHalf]),
   (c8_amended_feedback 3 eHalf []).2.2.2.2.1 (by norm_num [eHalf])⟩

/-! ## C9 — memory search decay -/

/-- C9: the search decay is `confidence * exp(-age_days/30)`: an entry with
confidence 0.9 and age 30 days has adjusted confidence 0.9·e⁻¹ (which lies
within 0.005 of 0.33), an entry with age 0 keeps adjusted confidence 0.9
exactly, and an entry whose adjusted confidence falls below the minimum
threshold is discarded by the search loop before any overlap scoring —
removing it does not change the search result at all. -/
theorem c9_memory_decay :
    adjustedConfidence 0.9 30 = 0.9 * Real.exp (-1) ∧
    (0.325 < adjustedConfidence 0.9 30 ∧ adjustedConfidence 0.9 30 < 0.335) ∧
    adjustedConfidence 0.9 0 = 0.9 ∧
    (∀ (e : SearchEntry) (rest : List SearchEntry) (syms : List String) (minC : Real),
      adjustedConfidence e.confidence e.ageDays < minC →
      searchMem (e :: rest) syms minC = searchMem rest syms minC) := by
  have h1 : adjustedConfidence 0.9 30 = 0.9 * Real.exp (-1) := by
    unfold adjustedConfidence
    norm_num
  have hdiv : (0.9 : Real) * (Real.exp 1)⁻¹ = 0.9 / Real.exp 1 :=
    (div_eq_mul_inv _ _).symm
  have hpos : (0 : Real) < Real.exp 1 := Real.exp_pos 1
  refine ⟨h1, ⟨?_, ?_⟩, ?_, ?_⟩
  · rw [h1, Real.exp_neg, hdiv, lt_div_iff₀ hpos]
    nlinarith [Real.exp_one_lt_d9]
  · rw [h1, Real.exp_neg, hdiv, div_lt_iff₀ hpos]
    nlinarith [Real.exp_one_gt_d9]
  · unfold adjustedConfidence
    norm_num
  · intro e rest syms minC h
    unfold searchMem
    congr 1
    simp only [searchLoop]
    rw [if_pos h]

/-- Witness for the hypothesis of `c9_memory_decay`: an entry with stored
confidence 0 is below the threshold 1 and is discarded by the search. -/
theorem c9_memory_decay_witness :
    searchMem [e0Search] [] 1 = searchMem [] [] 1 :=
  c9_memory_decay.2.2.2 e0Search [] [] 1
    (by simp [adjustedConfidence, e0Search])

/-! ## C10 — frame property of feedback -/

/-- C10: `feedback` mutates at most the first entry whose id matches:
when no entry matches, the store is returned unchanged and no save is
performed; the entry list keeps its length; every position other than the
first match is unchanged; and at the first-match position the entry is the
feedback update of the original, with a save performed. -/
theorem c10_feedback_frame :
    ∀ (now : Nat) (memory_id : String) (success : Bool) (mems : List MemEntry),
      ((∀ m ∈ mems, m.id ≠ memory_id) →
        feedbackList now memory_id success mems = (mems, false)) ∧
      ((feedbackList now memory_id success mems).1.length = mems.length) ∧
      (∀ j : Nat, firstMatchIdx memory_id mems ≠ some j →
        ((feedbackList now memory_id success mems).1)[j]? = mems[j]?) ∧
      (∀ j : Nat, firstMatchIdx memory_id mems = some j →
        ((feedbackList now memory_id success mems).1)[j]? =
          (mems[j]?).map (feedbackUpdate now success) ∧
        (feedbackList now memory_id success mems).2 = true) := by
  intro now memory_id success mems
  induction mems with
  | nil =>
    refine ⟨fun _ => rfl, rfl, fun j _ => rfl, fun j hj => ?_⟩
    simp [firstMatchIdx] at hj
  | cons m rest ih =>
    obtain ⟨ih1, ih2, ih3, ih4⟩ := ih
    cases hm : (m.id == memory_id) with
    | true =>
      have hid : m.id = memory_id := eq_of_beq hm
      have hfl : feedbackList now memory_id success (m :: rest) =
          (feedbackUpdate now success m :: rest, true) := by
        conv_lhs => rw [feedbackList]
        rw [if_pos hm]
      have hfi : firstMatchIdx memory_id (m :: rest) = some 0 := by
        conv_lhs => rw [firstMatchIdx]
        rw [if_pos hm]
      refine ⟨?_, ?_, ?_, ?_⟩
      · intro hall
        exact absurd hid (hall m (List.mem_cons_self m rest))
      · rw [hfl]
        simp
      · intro j hj
        rw [hfi] at hj
        match j, hj with
        | 0, hj => exact absurd rfl hj
        | k + 1, _ =>
          rw [hfl]
          simp
      · intro j hj
        rw [hfi] at hj
        injection hj with hj0
        subst hj0
        rw [hfl]
        constructor
        · simp
        · rfl
    | false =>
      have hfl : feedbackList now memory_id success (m :: rest) =
          (m :: (feedbackList now memory_id success rest).1,
           (feedbackList now memory_id success rest).2) := by
        conv_lhs => rw [feedbackList]
        rw [if_neg (by simp [hm])]
      have hfi : firstMatchIdx memory_id (m :: rest) =
          (firstMatchIdx memory_id rest).map (· + 1) := by
        conv_lhs => rw [firstMatchIdx]
        rw [if_neg (by simp [hm])]
      refine ⟨?_, ?_, ?_, ?_⟩
      · intro hall
        have hr := ih1 (fun x hx => hall x (List.mem_cons_of_mem m hx))
        rw [hfl, hr]
      · rw [hfl]
        simp [ih2]
      · intro j hj
        rw [hfi] at hj
        match j, hj with
        | 0, _ =>
          rw [hfl]
          simp
        | k + 1, hj =>
          have hk : firstMatchIdx memory_id rest ≠ some k := by
            intro hc
            rw [hc] at hj
            exact hj rfl
          rw [hfl]
          have h3 := ih3 k hk
          simp only [List.getElem?_cons_succ]
          exact h3
      · intro j hj
        rw [hfi] at hj
        cases hq : firstMatchIdx memory_id rest with
        | none =>
          rw [hq] at hj
          simp at hj
        | some k =>
          rw [hq] at hj
          simp at hj
          subst hj
          have hih := ih4 k hq
          rw [hfl]
          constructor
          · simp only [List.getElem?_cons_succ]
            exact hih.1
          · exact hih.2

/-- Witness for the hypotheses of `c10_feedback_frame`: feedback with an
unknown id leaves the one-entry store untouched with no save; feedback
matching the second of two entries leaves the first unchanged and updates
the second. -/
theorem c10_feedback_frame_witness :
    feedbackList 7 "zzz" true [eA] = ([eA], false) ∧
    ((feedbackList 7 "mem-b" false [eA, eB]).1)[0]? = [eA, eB][0]? ∧
    ((feedbackList 7 "mem-b" false [eA, eB]).1)[1]? =
      ([eA, eB][1]?).map (feedbackUpdate 7 false) :=
  ⟨(c10_feedback_frame 7 "zzz" true [eA]).1 (by decide),
   (c10_feedback_frame 7 "mem-b" false [eA, eB]).2.2.1 0 (by decide),
   ((c10_feedback_frame 7 "mem-b" false [eA, eB]).2.2.2 1 (by decide)).1⟩
